import Mathlib

/-!
Verification development for the authenticated content-extraction subsystem
of `src/mcp_servers/web_scraping.py`.

The Python code is shallowly embedded as executable Lean definitions:

* `_process_article_html` (lines 1032-1118) works on the DOM produced by
  BeautifulSoup; the parsed DOM is represented by the inductive type `Node`
  and the function by `process_article_html`.  The raw markup string is kept
  alongside its parse because the Python function first checks
  `if not html or len(html.strip()) == 0`.
* `_load_cookies` / `_save_cookies` (lines 965-1030) are embedded as pure
  functions over an explicit file-system state, with every fallible
  primitive (open/`json.load`, `os.makedirs`, write, `context.cookies()`,
  `context.add_cookies`) given an explicit outcome in an environment record.
* the orchestrator `scrape_medium_article_content` (lines 234-496) is
  embedded as a state function over a `World` record holding the outcome of
  each external interaction (browser launch, navigation, page content and
  title, located article markup); it returns the result together with the
  ordered list of external actions it performed, which makes properties of
  the form "X happens before/without Y" statable.

Python `str.strip` is modelled by `pyStrip` (ASCII whitespace) and
Python's substring test `pat in s` by `strContains`; both agree with
Python on the ASCII strings appearing in this file.
-/

/-- ASCII whitespace, as stripped by Python's `str.strip()`. -/
def pyWhitespace (c : Char) : Bool :=
  c == ' ' || c == '\t' || c == '\n' || c == '\r' || c == '\x0b' || c == '\x0c'

/-- Python's `str.strip()`: drop leading and trailing whitespace. -/
def pyStrip (s : String) : String :=
  String.mk (((s.toList.dropWhile pyWhitespace).reverse.dropWhile pyWhitespace).reverse)

/-- Whether `pat` occurs contiguously in `l`. -/
def charsContain (pat : List Char) : List Char → Bool
  | [] => pat.isEmpty
  | c :: rest => pat.isPrefixOf (c :: rest) || charsContain pat rest

/-- Python's substring test `pat in s`. -/
def strContains (s pat : String) : Bool :=
  charsContain pat.toList s.toList

/-- Python's `str.lower()` for ASCII. -/
def pyLower (s : String) : String :=
  String.mk (s.toList.map Char.toLower)

/-- The characters before the first occurrence of the separator `sep`
(assumed non-empty): Python's `s.split(sep)[0]`. -/
def upToSep (sep : List Char) : List Char → List Char
  | [] => []
  | c :: rest => if sep.isPrefixOf (c :: rest) then [] else c :: upToSep sep rest

/-- The DOM produced by `BeautifulSoup(html, "html.parser")`, restricted to
what `_process_article_html` observes: text nodes, `<img>` elements with
their `src`/`width`/`height` attributes (each `none` when the attribute is
absent), and other elements with their tag, `class` attribute list and
children. -/
inductive Node where
  | text (s : String) : Node
  | img (src width height : Option String) : Node
  | elem (tag : String) (classes : List String) (children : List Node) : Node

/-- `medium_image_patterns` from `_process_article_html` (lines 1065-1071). -/
def medium_image_patterns : List String :=
  ["miro.medium.com", "/resize:", "/max/", "/fit:", "/progressive:"]

/-- `article_content_classes` from `_process_article_html` (line 1104). -/
def article_content_classes : List String :=
  ["graf-image", "section-image", "post-image", "progressiveMedia"]

/-- The `parent_classes` collected by the loop at lines 1096-1102: the
`class` lists of the nearest (up to) three ancestors of the image, flattened.
In the embedding `anc` is the stack of ancestor class lists, nearest first;
the BeautifulSoup root object has no `class` attribute and corresponds to
the end of the stack. -/
def ancestor_classes (anc : List (List String)) : List String :=
  (anc.take 3).foldr (· ++ ·) []

/-- `str.isdigit()` for ASCII: non-empty and all decimal digits. -/
def isDigits (l : List Char) : Bool :=
  !l.isEmpty && l.all Char.isDigit

/-- `int(s)` on an all-digit string. -/
def digitsToNat (l : List Char) : Nat :=
  l.foldl (fun n c => 10 * n + (c.toNat - 48)) 0

/-- The dimension reading at lines 1079-1086: the attribute value is a string;
`isdigit` strings are converted with `int`, anything else keeps its string
type and fails the later `isinstance(_, int)` test, so the dimension counts
only when the attribute is present, non-empty and all digits. -/
def dimNat (a : Option String) : Option Nat :=
  match a with
  | none => none
  | some s => if isDigits s.toList then some (digitsToNat s.toList) else none

/-- The three-tier `is_article_image` classification of
`_process_article_html` (lines 1062-1106): a CDN URL-pattern match, or both
declared dimensions strictly above 100, or a known article-image container
class on an ancestor within 3 levels. -/
def is_article_image (src : String) (width height : Option String)
    (parentClasses : List String) : Bool :=
  medium_image_patterns.any (fun p => strContains src p)
  || (match dimNat width, dimNat height with
      | some w, some h => decide (100 < w) && decide (100 < h)
      | _, _ => false)
  || article_content_classes.any (fun c => parentClasses.contains c)

mutual
/-- The contribution of one DOM node to the output of
`_process_article_html` after the image-substitution loop (lines 1057-1115):
the list of string nodes it holds, in document order, and the list of image
URLs collected from it.  An `<img>` whose `src` is absent or empty is left
in place (it holds no string, so it contributes nothing); a content image is
replaced by the string `[IMG: <src>]` and its `src` recorded; a decorative
image is replaced by the empty string. -/
def processNode (anc : List (List String)) : Node → List String × List String
  | .text s => ([s], [])
  | .img src w h =>
    match src with
    | none => ([], [])
    | some s =>
      if s = "" then ([], [])
      else if is_article_image s w h (ancestor_classes anc) then
        (["[IMG: " ++ s ++ "]"], [s])
      else ([""], [])
  | .elem _ classes children => processList (classes :: anc) children
/-- `processNode` extended over a list of sibling nodes, concatenating the
string nodes and the collected URLs in document order. -/
def processList (anc : List (List String)) : List Node → List String × List String
  | [] => ([], [])
  | n :: ns =>
    let p := processNode anc n
    let q := processList anc ns
    (p.1 ++ q.1, p.2 ++ q.2)

end

/-- `soup.get_text(separator=" ", strip=True)` (line 1118): each string node
is stripped, empty results are dropped, and the rest are joined with a
single space. -/
def get_text (pieces : List String) : String :=
  String.intercalate " " ((pieces.map pyStrip).filter (fun s => !s.isEmpty))

/-- `_process_article_html(html)` (lines 1032-1118).  `html` is the raw
markup string and `dom` its BeautifulSoup parse (parsing itself is done by
the external library and is not re-implemented); the pair returned is
(plain text with image placeholders, list of collected image URLs). -/
def process_article_html (html : String) (dom : List Node) : String × List String :=
  if pyStrip html = "" then ("", [])
  else
    let p := processList [] dom
    (get_text p.1, p.2)

/-- The outcome of a Python call that either returns a value or raises an
exception carrying a message. -/
inductive PyResult (A : Type) where
  | raised (msg : String) : PyResult A
  | ret (a : A) : PyResult A
deriving DecidableEq

/-- One credential record of the session file, as produced by Playwright's
`context.cookies()` and consumed by `context.add_cookies`. -/
structure Cookie where
  name : String
  value : String
  domain : String
  path : String
  expiry : Int
deriving DecidableEq

/-- The state of the cookie store on disk: whether the parent directory of
`MEDIUM_COOKIES_FILE` exists, and the serialized cookie list (`none` when
the file is absent). -/
structure FS where
  dirPresent : Bool
  file : Option (List Cookie)
deriving DecidableEq

/-- Environment for one `_load_cookies` run (lines 1002-1030): whether
`os.path.exists` finds the file, the combined outcome of `open` +
`json.load` (an exception or the parsed cookie list), and whether
`context.add_cookies` succeeds. -/
structure LoadEnv where
  filePresent : Bool
  readParse : PyResult (List Cookie)
  addOk : Bool
deriving DecidableEq

/-- `_load_cookies` (lines 1002-1030): returns `false` when the file is
absent, when reading or parsing raises (the surrounding `try` catches every
exception), when the parsed list is empty, or when `add_cookies` raises;
returns `true` only after a non-empty cookie list was applied to the
context. -/
def load_cookies (env : LoadEnv) : Bool :=
  if !env.filePresent then false
  else
    match env.readParse with
    | .raised _ => false
    | .ret cookies =>
      if cookies.isEmpty then false
      else if env.addOk then true
      else false

/-- Environment for one `_save_cookies` run (lines 965-1000): the outcome of
`context.cookies()`, whether `os.path.dirname(MEDIUM_COOKIES_FILE)` is
non-empty, and whether `os.makedirs` or the write raise. -/
structure SaveEnv where
  cookiesRes : PyResult (List Cookie)
  hasParentDir : Bool
  mkdirRaises : Bool
  writeRaises : Bool
deriving DecidableEq

/-- `_save_cookies` (lines 965-1000), threading the file-system state:
an empty cookie list returns `false` before any file operation; otherwise
the missing parent directory is created, the list is written, and `true` is
reported only after the `os.path.exists` verification; every exception is
caught and reported as `false`. -/
def save_cookies (env : SaveEnv) (fs : FS) : Bool × FS :=
  match env.cookiesRes with
  | .raised _ => (false, fs)
  | .ret cookies =>
    if cookies.isEmpty then (false, fs)
    else
      match
        (if env.hasParentDir && !fs.dirPresent then
          if env.mkdirRaises then none else some { fs with dirPresent := true }
        else some fs) with
      | none => (false, fs)
      | some fs1 =>
        if env.writeRaises then (false, fs1)
        else
          let fs2 := { fs1 with file := some cookies }
          if fs2.file.isSome then (true, fs2) else (false, fs2)

/-- The scheme characters of `urllib.parse` (letters, digits, `+`, `-`, `.`). -/
def schemeChar (c : Char) : Bool :=
  c.isAlpha || c.isDigit || c == '+' || c == '-' || c == '.'

/-- Split a character list at the first `:`, returning the parts before and
after it; `none` when there is no colon (the `url.find(':')` step of
`urllib.parse.urlsplit`). -/
def splitAtColon (acc : List Char) : List Char → Option (List Char × List Char)
  | [] => none
  | c :: rest => if c == ':' then some (acc.reverse, rest) else splitAtColon (c :: acc) rest

/-- The netloc step of `urllib.parse.urlsplit`: when the remainder after the
scheme starts with `//`, the netloc runs up to the next `/`, `?` or `#`. -/
def netlocChars : List Char → List Char
  | '/' :: '/' :: rest => rest.takeWhile (fun c => !(c == '/' || c == '?' || c == '#'))
  | _ => []

/-- `urllib.parse.urlparse`, restricted to the `(scheme, netloc)` fields the
orchestrator reads: the part before the first colon is the scheme when it is
non-empty, starts with a letter and uses only scheme characters (lowercased
as in CPython); the netloc is the `//`-delimited authority of the rest. -/
def urlparse (url : String) : String × String :=
  let l := url.toList
  let sr : List Char × List Char :=
    match splitAtColon [] l with
    | some (before, after) =>
      match before with
      | [] => ([], l)
      | c :: cs =>
        if c.isAlpha && (c :: cs).all schemeChar then ((c :: cs).map Char.toLower, after)
        else ([], l)
    | none => ([], l)
  (String.mk sr.1, String.mk (netlocChars sr.2))

/-- The content-based logged-in indicators of the Session Validator
(`validate_medium_cookies`, lines 171-177). -/
def logged_in_indicators : List String :=
  ["Sign out", "Your stories", "Your profile", "Account settings", "Write a story"]

/-- The Session Validator's decision (`validate_medium_cookies`, lines
133-183): a visible structural probe (the ranked selector list, abstracted
to whether any probe matches) or, as fallback, one of the logged-in phrases
occurring case-insensitively in the rendered homepage content.  The scrape
orchestrator never invokes this check. -/
def session_is_authenticated (probeVisible : Bool) (homepageContent : String) : Bool :=
  probeVisible
  || logged_in_indicators.any (fun i => strContains (pyLower homepageContent) (pyLower i))

/-- The login-page / paywall phrase check of the orchestrator (lines
408-410). -/
def is_login_page (content : String) : Bool :=
  ["sign in", "become a member", "join medium"].any (fun p => strContains (pyLower content) p)

/-- The `" | Medium"` title-suffix strip of `_scrape_medium_article`
(lines 1151-1153): `article_name.split(" | Medium")[0]` when the title is
non-empty and contains the suffix. -/
def strip_medium_title (t : String) : String :=
  if t ≠ "" && strContains t " | Medium" then
    String.mk (upToSep " | Medium".toList t.toList)
  else t

/-- Outcome of `_login_medium` when it returns normally: the
`authenticated` flag and the `error` message reported on failure. -/
structure LoginOutcome where
  authenticated : Bool
  errMsg : String
deriving DecidableEq

/-- The observable external actions the orchestrator performs, in order. -/
inductive ScrapeAct where
  | launchBrowser
  | loadSession
  | runLogin
  | saveSession
  | navigate
  | extract
deriving DecidableEq

/-- Result dictionary of `scrape_medium_article_content`: either the
article dictionary (`Name`/`Link`/`Scraped text`/`Images`) or an `error`
entry with the message the code builds. -/
inductive ScrapeResult where
  | ok (name link text : String) (images : List String)
  | error (msg : String)
deriving DecidableEq

/-- Whether a scrape result is an error dictionary. -/
def ScrapeResult.isErr : ScrapeResult → Bool
  | .ok _ _ _ _ => false
  | .error _ => true

/-- The outcome of every external interaction one `scrape` invocation may
perform.  `homepageProbeVisible` and `homepageContent` describe what the
Session Validator would observe for the stored session; the orchestrator
itself never reads them. -/
structure World where
  launch : PyResult Unit
  loadEnv : LoadEnv
  homepageProbeVisible : Bool
  homepageContent : String
  loginResult : PyResult LoginOutcome
  saveEnv : SaveEnv
  fs : FS
  goto : PyResult Unit
  pageTitle : String
  pageContent : String
  articleHtml : String
  articleDom : List Node

/-- Result, performed actions and final file-system state of one scrape. -/
structure ScrapeOut where
  result : ScrapeResult
  actions : List ScrapeAct
  fs : FS

/-- The tail of the orchestrator after the session phase (lines 384-476):
navigate to the article (a navigation exception is caught by the handler
that reports `Failed to extract article content`), check the rendered
content for login/paywall phrases, then extract title and body via
`_scrape_medium_article` / `_process_article_html` and return the article
dictionary — the emptiness checks at lines 429-446 only record debug
information. -/
def scrape_article_phase (short_url : String) (w : World) (acts : List ScrapeAct)
    (fs : FS) : ScrapeOut :=
  match w.goto with
  | .raised e =>
    ⟨.error ("Failed to extract article content: " ++ e), acts ++ [.navigate], fs⟩
  | .ret _ =>
    if is_login_page w.pageContent then
      ⟨.error "Authentication failed: Redirected to login page or hit a paywall",
        acts ++ [.navigate], fs⟩
    else
      let name := strip_medium_title w.pageTitle
      let p := process_article_html w.articleHtml w.articleDom
      ⟨.ok name short_url p.1 p.2, acts ++ [.navigate, .extract], fs⟩

/-- `scrape_medium_article_content` (lines 234-496): validate the URL, launch
the browser, try to restore the session with `_load_cookies`, run
`_login_medium` only when that fails (persisting the renewed session with
`_save_cookies` on success, its boolean result recorded only in debug
information), then navigate and extract. -/
def scrape_medium_article_content (short_url : String) (w : World) : ScrapeOut :=
  if short_url = "" then
    ⟨.error "Invalid URL: URL must be a non-empty string", [], w.fs⟩
  else
    let parts := urlparse short_url
    if parts.1 = "" || parts.2 = "" then
      ⟨.error "Invalid URL: Missing scheme or domain", [], w.fs⟩
    else
      match w.launch with
      | .raised e => ⟨.error ("Browser automation error: " ++ e), [.launchBrowser], w.fs⟩
      | .ret _ =>
        let a0 : List ScrapeAct := [.launchBrowser, .loadSession]
        if load_cookies w.loadEnv then
          scrape_article_phase short_url w a0 w.fs
        else
          match w.loginResult with
          | .raised e =>
            ⟨.error ("Failed to authenticate with Medium: " ++ e), a0 ++ [.runLogin], w.fs⟩
          | .ret lr =>
            if lr.authenticated then
              let fs1 := (save_cookies w.saveEnv w.fs).2
              scrape_article_phase short_url w (a0 ++ [.runLogin, .saveSession]) fs1
            else
              ⟨.error ("Failed to authenticate with Medium: " ++ lr.errMsg),
                a0 ++ [.runLogin], w.fs⟩

/-- The Scenario A markup: one `<article>` with text `Hello`, then an image
with a Medium-CDN `src`, then text `World`. -/
def scenarioA_html : String :=
  "<article>Hello<img src=\"https://miro.medium.com/resize:fit:800/x.png\">World</article>"

/-- The BeautifulSoup parse of `scenarioA_html`. -/
def scenarioA_dom : List Node :=
  [Node.elem "article" []
    [Node.text "Hello",
     Node.img (some "https://miro.medium.com/resize:fit:800/x.png") none none,
     Node.text "World"]]

/-- The Scenario B markup: the same shape, but the image `src` is a generic
16×16 icon URL with no recognized CDN pattern and no qualifying ancestor
class. -/
def scenarioB_html : String :=
  "<article>Hello<img src=\"https://example.com/icons/icon-16x16.png\" width=\"16\" height=\"16\">World</article>"

/-- The BeautifulSoup parse of `scenarioB_html`. -/
def scenarioB_dom : List Node :=
  [Node.elem "article" []
    [Node.text "Hello",
     Node.img (some "https://example.com/icons/icon-16x16.png") (some "16") (some "16"),
     Node.text "World"]]

/-- Markup holding two content-classified images with the same `src`. -/
def dupImage_html : String :=
  "<article><img src=\"https://miro.medium.com/max/800/a.png\">mid<img src=\"https://miro.medium.com/max/800/a.png\"></article>"

/-- The BeautifulSoup parse of `dupImage_html`. -/
def dupImage_dom : List Node :=
  [Node.elem "article" []
    [Node.img (some "https://miro.medium.com/max/800/a.png") none none,
     Node.text "mid",
     Node.img (some "https://miro.medium.com/max/800/a.png") none none]]

/-- A load environment whose store holds one valid credential record. -/
def okLoadEnv : LoadEnv :=
  { filePresent := true,
    readParse := .ret [⟨"sid", "v", "medium.com", "/", 0⟩],
    addOk := true }

/-- A save environment that is never consulted on the paths under study. -/
def idleSaveEnv : SaveEnv :=
  { cookiesRes := .raised "not invoked", hasParentDir := false,
    mkdirRaises := false, writeRaises := false }

/-- A world for runs that stop at URL validation. -/
def trivialWorld : World :=
  { launch := .ret (),
    loadEnv := { filePresent := false, readParse := .raised "missing", addOk := false },
    homepageProbeVisible := false, homepageContent := "",
    loginResult := .raised "not invoked",
    saveEnv := idleSaveEnv,
    fs := { dirPresent := true, file := none },
    goto := .ret (), pageTitle := "", pageContent := "",
    articleHtml := "", articleDom := [] }

/-- A world in which the session restores from cookies, navigation succeeds,
no paywall phrase is rendered, and the Content Extractor finds an empty
title and an empty body. -/
def emptyExtractionWorld : World :=
  { launch := .ret (),
    loadEnv := okLoadEnv,
    homepageProbeVisible := true, homepageContent := "",
    loginResult := .raised "not invoked",
    saveEnv := idleSaveEnv,
    fs := { dirPresent := true, file := some [⟨"sid", "v", "medium.com", "/", 0⟩] },
    goto := .ret (), pageTitle := "", pageContent := "<main>article text</main>",
    articleHtml := "", articleDom := [] }

/-- A world that reaches the extractor through the other session route:
cookie loading fails, the interactive login succeeds and the renewed
session is saved; navigation succeeds, no paywall phrase is rendered, and
the Content Extractor again finds an empty title and an empty body. -/
def emptyExtractionLoginWorld : World :=
  { launch := .ret (),
    loadEnv := { filePresent := false, readParse := .raised "missing", addOk := false },
    homepageProbeVisible := true, homepageContent := "",
    loginResult := .ret { authenticated := true, errMsg := "" },
    saveEnv := { cookiesRes := .ret [⟨"sid", "v", "medium.com", "/", 0⟩],
                 hasParentDir := false, mkdirRaises := false, writeRaises := false },
    fs := { dirPresent := true, file := none },
    goto := .ret (), pageTitle := "", pageContent := "<main>article text</main>",
    articleHtml := "", articleDom := [] }

/-- A world in which the cookie file loads (non-empty, parseable, applied),
yet the Session Validator would report the stored session as not
authenticated: no structural probe is visible and the rendered homepage
holds none of the logged-in phrases. -/
def staleSessionWorld : World :=
  { launch := .ret (),
    loadEnv := okLoadEnv,
    homepageProbeVisible := false,
    homepageContent := "<html>Welcome - read more stories</html>",
    loginResult := .raised "not invoked",
    saveEnv := idleSaveEnv,
    fs := { dirPresent := true, file := some [⟨"sid", "v", "medium.com", "/", 0⟩] },
    goto := .ret (), pageTitle := "A story", pageContent := "<main>story body</main>",
    articleHtml := "<article>story body</article>",
    articleDom := [Node.elem "article" [] [Node.text "story body"]] }

/-- A world in which cookie loading fails, the interactive login succeeds,
and the renewed session is persisted. -/
def loginWorld : World :=
  { launch := .ret (),
    loadEnv := { filePresent := false, readParse := .raised "missing", addOk := false },
    homepageProbeVisible := false, homepageContent := "",
    loginResult := .ret { authenticated := true, errMsg := "" },
    saveEnv := { cookiesRes := .ret [⟨"sid", "v", "medium.com", "/", 0⟩],
                 hasParentDir := false, mkdirRaises := false, writeRaises := false },
    fs := { dirPresent := true, file := none },
    goto := .ret (), pageTitle := "A story", pageContent := "<main>story body</main>",
    articleHtml := "<article>story body</article>",
    articleDom := [Node.elem "article" [] [Node.text "story body"]] }

/-- Processing a concatenation of sibling lists concatenates the string
nodes and the collected URLs componentwise. -/
theorem processList_append (anc : List (List String)) (xs ys : List Node) :
    processList anc (xs ++ ys)
      = ((processList anc xs).1 ++ (processList anc ys).1,
         (processList anc xs).2 ++ (processList anc ys).2) := by
  induction xs with
  | nil => simp [processList]
  | cons n ns ih => simp [processList, ih]

/-- C1: wherever a content-classified image (non-empty `src`, classifier
true for its ancestor-class stack) stands among its siblings, processing
yields exactly the string nodes of the preceding siblings, then the literal
marker `[IMG: <src>]`, then the string nodes of the following siblings (and
likewise for the collected URLs), so text before/after the image in source
order stays before/after its marker in `bodyText`; in particular Scenario A
extracts to `Hello [IMG: https://miro.medium.com/resize:fit:800/x.png]
World` with exactly that image URL collected. -/
theorem content_image_marker_kept_in_place
    (anc : List (List String)) (pre post : List Node)
    (s : String) (w h : Option String) (hs : s ≠ "")
    (hc : is_article_image s w h (ancestor_classes anc) = true) :
    processList anc (pre ++ Node.img (some s) w h :: post)
        = ((processList anc pre).1 ++ ("[IMG: " ++ s ++ "]") :: (processList anc post).1,
           (processList anc pre).2 ++ s :: (processList anc post).2)
      ∧ process_article_html scenarioA_html scenarioA_dom
        = ("Hello [IMG: https://miro.medium.com/resize:fit:800/x.png] World",
           ["https://miro.medium.com/resize:fit:800/x.png"]) := by
  constructor
  · rw [processList_append]
    simp [processList, processNode, hs, hc]
  · decide

/-- Witness for `content_image_marker_kept_in_place` at a concrete content
image between two text siblings. -/
theorem content_image_marker_kept_in_place_witness :
    processList [] ([Node.text "a"]
        ++ Node.img (some "https://miro.medium.com/max/700/b.jpg") none none :: [Node.text "b"])
      = (["a", "[IMG: https://miro.medium.com/max/700/b.jpg]", "b"],
         ["https://miro.medium.com/max/700/b.jpg"]) := by
  have h := content_image_marker_kept_in_place [] [Node.text "a"] [Node.text "b"]
    "https://miro.medium.com/max/700/b.jpg" none none (by decide) (by decide)
  rw [h.1]
  decide

/-- C7: wherever a decoratively-classified image (non-empty `src`,
classifier false for its ancestor-class stack) stands among its siblings, it
is replaced by the empty string — which `get_text` drops — and contributes
no URL, so no marker for it appears in `bodyText` and its URL is not
collected from it; in particular Scenario B yields `bodyText = "Hello
World"` with no `[IMG:` marker anywhere and an empty image list. -/
theorem decorative_image_dropped
    (anc : List (List String)) (pre post : List Node)
    (s : String) (w h : Option String) (hs : s ≠ "")
    (hc : is_article_image s w h (ancestor_classes anc) = false) :
    processList anc (pre ++ Node.img (some s) w h :: post)
        = ((processList anc pre).1 ++ "" :: (processList anc post).1,
           (processList anc pre).2 ++ (processList anc post).2)
      ∧ get_text ((processList anc pre).1 ++ "" :: (processList anc post).1)
        = get_text ((processList anc pre).1 ++ (processList anc post).1)
      ∧ process_article_html scenarioB_html scenarioB_dom = ("Hello World", [])
      ∧ strContains (process_article_html scenarioB_html scenarioB_dom).1 "[IMG:" = false := by
  refine ⟨?_, ?_, by decide, by decide⟩
  · rw [processList_append]
    simp [processList, processNode, hs, hc]
  · have hp : pyStrip "" = "" := rfl
    have he : ("" : String).isEmpty = true := rfl
    simp [get_text, hp, he]

/-- Witness for `decorative_image_dropped` at a concrete decorative image
between two text siblings. -/
theorem decorative_image_dropped_witness :
    processList [] ([Node.text "a"]
        ++ Node.img (some "https://example.com/logo.png") none none :: [Node.text "b"])
      = (["a", "", "b"], []) := by
  have h := decorative_image_dropped [] [Node.text "a"] [Node.text "b"]
    "https://example.com/logo.png" none none (by decide) (by decide)
  rw [h.1]
  decide

/-- C10: an `<img>` whose `src` attribute is absent, or present but empty,
is skipped by the `if src:` guard (lines 1058-1059): it is neither replaced
by a marker nor removed, contributes no string node and no URL, and
processing of the surrounding markup completes normally; in particular the
Scenario A markup with the image's `src` removed extracts to `Hello World`
with no images. -/
theorem srcless_image_contributes_nothing
    (anc : List (List String)) (pre post : List Node) (w h : Option String) :
    processList anc (pre ++ Node.img none w h :: post)
        = ((processList anc pre).1 ++ (processList anc post).1,
           (processList anc pre).2 ++ (processList anc post).2)
      ∧ processList anc (pre ++ Node.img (some "") w h :: post)
        = ((processList anc pre).1 ++ (processList anc post).1,
           (processList anc pre).2 ++ (processList anc post).2)
      ∧ process_article_html "<article>Hello<img>World</article>"
          [Node.elem "article" [] [Node.text "Hello", Node.img none none none, Node.text "World"]]
        = ("Hello World", []) := by
  refine ⟨?_, ?_, by decide⟩
  · rw [processList_append]
    simp [processList, processNode]
  · rw [processList_append]
    simp [processList, processNode]

/-- C8: `_process_article_html` on empty or whitespace-only markup returns
the pair of an empty text and an empty image list via the guard at lines
1049-1050; being a total Lean function of the modelled inputs, it raises no
fault. -/
theorem empty_markup_extracts_empty (html : String) (dom : List Node)
    (h : pyStrip html = "") :
    process_article_html html dom = ("", []) := by
  simp [process_article_html, h]

/-- Witness for `empty_markup_extracts_empty` on whitespace-only markup. -/
theorem empty_markup_extracts_empty_witness :
    pyStrip "  \n\t " = "" ∧ process_article_html "  \n\t " [Node.text "  "] = ("", []) :=
  ⟨by decide, empty_markup_extracts_empty "  \n\t " [Node.text "  "] (by decide)⟩

/-- C4 counterexample: on markup where the same `src` appears on two
content-classified images, the returned image list holds that URL twice —
the entries are not distinct, refuting the claim that no URL occurs more
than once. -/
theorem images_list_not_distinct :
    (process_article_html dupImage_html dupImage_dom).2
        = ["https://miro.medium.com/max/800/a.png", "https://miro.medium.com/max/800/a.png"]
      ∧ ¬ (process_article_html dupImage_html dupImage_dom).2.Nodup := by
  constructor
  · decide
  · decide

/-- C4 amended: the image list carries one entry — the image's `src` — per
content-classified image, in document order; occurrences are appended
unconditionally (line 1111), so duplicate URLs are preserved, not
suppressed. -/
theorem images_one_entry_per_content_image
    (anc : List (List String)) (pre post : List Node)
    (s : String) (w h : Option String) (hs : s ≠ "")
    (hc : is_article_image s w h (ancestor_classes anc) = true) :
    (processList anc (pre ++ Node.img (some s) w h :: post)).2
      = (processList anc pre).2 ++ s :: (processList anc post).2 := by
  rw [processList_append]
  simp [processList, processNode, hs, hc]

/-- Witness for `images_one_entry_per_content_image`: the second copy of an
already-collected URL is still appended. -/
theorem images_one_entry_per_content_image_witness :
    (processList [] ([Node.img (some "https://miro.medium.com/max/800/a.png") none none,
        Node.text "mid"]
        ++ Node.img (some "https://miro.medium.com/max/800/a.png") none none :: [])).2
      = ["https://miro.medium.com/max/800/a.png", "https://miro.medium.com/max/800/a.png"] := by
  have h := images_one_entry_per_content_image []
    [Node.img (some "https://miro.medium.com/max/800/a.png") none none, Node.text "mid"] []
    "https://miro.medium.com/max/800/a.png" none none (by decide) (by decide)
  rw [h]
  decide

/-- C5: `_save_cookies` given zero credential records reports failure with
the file-system state untouched; given a non-empty record set and no fault
it creates the missing parent directory, writes the records and reports
success; it reports success only when the written file passes the
`os.path.exists` check; and on an exception from `context.cookies()`, from
`os.makedirs`, or from the write it reports failure. -/
theorem save_zero_records_fails_untouched (env : SaveEnv) (fs : FS)
    (cs : List Cookie) (e : String) :
    (env.cookiesRes = .ret [] → save_cookies env fs = (false, fs))
    ∧ (env.cookiesRes = .ret cs → cs ≠ [] → env.mkdirRaises = false →
        env.writeRaises = false →
        save_cookies env fs
          = (true, { dirPresent := fs.dirPresent || env.hasParentDir, file := some cs }))
    ∧ ((save_cookies env fs).1 = true → (save_cookies env fs).2.file.isSome = true)
    ∧ (env.cookiesRes = .raised e → save_cookies env fs = (false, fs))
    ∧ (env.writeRaises = true → (save_cookies env fs).1 = false)
    ∧ (env.mkdirRaises = true → env.hasParentDir = true → fs.dirPresent = false →
        save_cookies env fs = (false, fs)) := by
  refine ⟨?_, ?_, ?_, ?_, ?_, ?_⟩
  · intro h
    simp [save_cookies, h]
  · intro h hcs hm hw
    cases fs with
    | mk dp f =>
      simp only [save_cookies, h, hcs, hm, hw]
      cases dp <;> cases env.hasParentDir <;> simp [hcs]
  · unfold save_cookies
    cases env.cookiesRes with
    | raised m => simp
    | ret cs2 =>
      by_cases hcs2 : cs2.isEmpty
      · simp [hcs2]
      · simp only [hcs2]
        by_cases hd : env.hasParentDir && !fs.dirPresent
        · by_cases hm : env.mkdirRaises <;> by_cases hw : env.writeRaises <;>
            simp [hd, hm, hw]
        · by_cases hw : env.writeRaises <;> simp [hd, hw]
  · intro h
    simp [save_cookies, h]
  · intro hw
    unfold save_cookies
    cases env.cookiesRes with
    | raised m => simp
    | ret cs2 =>
      by_cases hcs2 : cs2.isEmpty
      · simp [hcs2]
      · simp only [hcs2]
        by_cases hd : env.hasParentDir && !fs.dirPresent
        · by_cases hm : env.mkdirRaises <;> simp [hd, hm, hw]
        · simp [hd, hw]
  · intro hm hp hd
    unfold save_cookies
    cases env.cookiesRes with
    | raised m => simp
    | ret cs2 =>
      by_cases hcs2 : cs2.isEmpty
      · simp [hcs2]
      · simp [hcs2, hm, hp, hd]

/-- Witness for `save_zero_records_fails_untouched` at a concrete
environment and a pre-existing file. -/
theorem save_zero_records_fails_untouched_witness :
    save_cookies
        { cookiesRes := .ret [], hasParentDir := false,
          mkdirRaises := false, writeRaises := false }
        { dirPresent := true, file := some [⟨"sid", "v", "medium.com", "/", 0⟩] }
      = (false, { dirPresent := true, file := some [⟨"sid", "v", "medium.com", "/", 0⟩] }) :=
  (save_zero_records_fails_untouched
    { cookiesRes := .ret [], hasParentDir := false,
      mkdirRaises := false, writeRaises := false }
    { dirPresent := true, file := some [⟨"sid", "v", "medium.com", "/", 0⟩] }
    [] "").1 rfl

/-- C6: `_load_cookies` is a total function of the modelled store state — it
never raises to its caller — and it returns `false` (absence) whenever the
file does not exist, reading or parsing it raises, or it holds an empty
credential array; the empty array is thereby treated identically to a
missing file. -/
theorem load_absent_on_any_failure (env : LoadEnv)
    (h : env.filePresent = false
        ∨ (∃ e, env.readParse = PyResult.raised e)
        ∨ env.readParse = .ret []) :
    load_cookies env = false := by
  rcases h with h | ⟨e, h⟩ | h
  · simp [load_cookies, h]
  · simp [load_cookies, h]
  · simp [load_cookies, h]

/-- Witness for `load_absent_on_any_failure` on a store holding an empty
credential array. -/
theorem load_absent_on_any_failure_witness :
    load_cookies { filePresent := true, readParse := .ret [], addOk := true } = false :=
  load_absent_on_any_failure
    { filePresent := true, readParse := .ret [], addOk := true }
    (Or.inr (Or.inr rfl))

/-- C9: a URL that is empty, or whose parse lacks a scheme or a host, is
rejected as invalid input before any browser is launched or any navigation
attempted: the action trace is empty, the result is one of the two
`Invalid URL` error dictionaries, and the session store is untouched. -/
theorem invalid_url_rejected_before_browser (url : String) (w : World)
    (h : url = "" ∨ (urlparse url).1 = "" ∨ (urlparse url).2 = "") :
    (scrape_medium_article_content url w).actions = []
    ∧ ((scrape_medium_article_content url w).result
          = .error "Invalid URL: URL must be a non-empty string"
        ∨ (scrape_medium_article_content url w).result
          = .error "Invalid URL: Missing scheme or domain")
    ∧ (scrape_medium_article_content url w).fs = w.fs := by
  by_cases hu : url = ""
  · simp [scrape_medium_article_content, hu]
  · rcases h with h | h | h
    · exact absurd h hu
    · simp [scrape_medium_article_content, hu, h]
    · simp [scrape_medium_article_content, hu, h]

/-- Witness for `invalid_url_rejected_before_browser` on Scenario C's input
`not-a-url`, whose parse has no scheme. -/
theorem invalid_url_rejected_before_browser_witness :
    (scrape_medium_article_content "not-a-url" trivialWorld).actions = []
    ∧ ((scrape_medium_article_content "not-a-url" trivialWorld).result
          = .error "Invalid URL: URL must be a non-empty string"
        ∨ (scrape_medium_article_content "not-a-url" trivialWorld).result
          = .error "Invalid URL: Missing scheme or domain")
    ∧ (scrape_medium_article_content "not-a-url" trivialWorld).fs = trivialWorld.fs :=
  invalid_url_rejected_before_browser "not-a-url" trivialWorld
    (Or.inr (Or.inl (by decide)))

/-- C2 counterexample: in `emptyExtractionWorld` the Content Extractor
produces an empty title and an empty body, yet the scrape returns the
article dictionary (with empty fields), not an error dictionary — the
emptiness checks at lines 429-446 only record debug information before
`return article_data` at line 458. -/
theorem empty_extraction_returns_ok_not_error :
    strip_medium_title emptyExtractionWorld.pageTitle = ""
    ∧ (process_article_html emptyExtractionWorld.articleHtml emptyExtractionWorld.articleDom).1 = ""
    ∧ (scrape_medium_article_content "https://medium.com/p/abc" emptyExtractionWorld).result
        = ScrapeResult.ok "" "https://medium.com/p/abc" "" []
    ∧ (scrape_medium_article_content "https://medium.com/p/abc" emptyExtractionWorld).result.isErr
        = false := by
  refine ⟨by decide, by decide, ?_, ?_⟩ <;> decide

/-- C2 amended: when the URL validates, the browser launches, the session
phase succeeds on either of its two routes — cookies restore the session,
or cookie loading fails and the interactive login returns authenticated —
navigation succeeds and no login/paywall phrase is rendered, the scrape
returns the extractor's article dictionary unconditionally — also when
both the title and the body it carries are empty; the emptiness is
recorded only in debug diagnostics, never as a typed failure. -/
theorem scrape_returns_extraction_even_when_empty (url : String) (w : World)
    (hu : url ≠ "") (hs : (urlparse url).1 ≠ "") (hn : (urlparse url).2 ≠ "")
    (hl : w.launch = .ret ())
    (hauth : load_cookies w.loadEnv = true
        ∨ (∃ lr, w.loginResult = .ret lr ∧ lr.authenticated = true))
    (hg : w.goto = .ret ()) (hp : is_login_page w.pageContent = false) :
    (scrape_medium_article_content url w).result
      = .ok (strip_medium_title w.pageTitle) url
          (process_article_html w.articleHtml w.articleDom).1
          (process_article_html w.articleHtml w.articleDom).2 := by
  by_cases hload : load_cookies w.loadEnv
  · simp [scrape_medium_article_content, hu, hs, hn, hl, hload,
      scrape_article_phase, hg, hp]
  · rcases hauth with hauth | ⟨lr, hlr, ha⟩
    · exact absurd hauth hload
    · simp [scrape_medium_article_content, hu, hs, hn, hl, hload, hlr, ha,
        scrape_article_phase, hg, hp]

/-- Witness for `scrape_returns_extraction_even_when_empty` at
`emptyExtractionLoginWorld`, which reaches the extractor through a failed
cookie load followed by a successful interactive login, and where the
extracted title and body are empty. -/
theorem scrape_returns_extraction_even_when_empty_witness :
    (scrape_medium_article_content "https://medium.com/p/xyz" emptyExtractionLoginWorld).result
      = .ok (strip_medium_title emptyExtractionLoginWorld.pageTitle) "https://medium.com/p/xyz"
          (process_article_html emptyExtractionLoginWorld.articleHtml
            emptyExtractionLoginWorld.articleDom).1
          (process_article_html emptyExtractionLoginWorld.articleHtml
            emptyExtractionLoginWorld.articleDom).2 :=
  scrape_returns_extraction_even_when_empty "https://medium.com/p/xyz"
    emptyExtractionLoginWorld
    (by decide) (by decide) (by decide) rfl
    (Or.inr ⟨{ authenticated := true, errMsg := "" }, rfl, rfl⟩)
    rfl (by decide)

/-- C3 counterexample: in `staleSessionWorld` the cookie file loads, the
Session Validator would report the stored session as not authenticated,
yet the scrape never runs the Interactive Authenticator and completes with
an article dictionary — the interactive login is skipped on mere cookie
loading, without any validation of the loaded session. -/
theorem stale_loaded_session_skips_login :
    load_cookies staleSessionWorld.loadEnv = true
    ∧ session_is_authenticated staleSessionWorld.homepageProbeVisible
        staleSessionWorld.homepageContent = false
    ∧ ScrapeAct.runLogin ∉
        (scrape_medium_article_content "https://medium.com/p/abc" staleSessionWorld).actions
    ∧ (scrape_medium_article_content "https://medium.com/p/abc" staleSessionWorld).result.isErr
        = false := by
  refine ⟨by decide, by decide, by decide, by decide⟩

/-- C3 amended: after URL validation and browser launch, the session is
loaded via the Session Store first; the Interactive Authenticator runs
exactly when that cookie loading fails (file absent, unreadable,
unparseable, empty, or cookies not applicable) — no validation of a
successfully loaded session is performed before skipping the login.  On
authenticator success the renewed session is persisted via the Session
Store, and the outcome of that persistence has no effect on the scrape's
result. -/
theorem login_exactly_when_cookie_load_fails (url : String) (w : World)
    (lr : LoginOutcome) (se : SaveEnv)
    (hu : url ≠ "") (hs : (urlparse url).1 ≠ "") (hn : (urlparse url).2 ≠ "")
    (hl : w.launch = .ret ()) :
    ((scrape_medium_article_content url w).actions.take 2
        = [ScrapeAct.launchBrowser, ScrapeAct.loadSession])
    ∧ (ScrapeAct.runLogin ∈ (scrape_medium_article_content url w).actions
        ↔ load_cookies w.loadEnv = false)
    ∧ (load_cookies w.loadEnv = false → w.loginResult = .ret lr →
        lr.authenticated = true →
        ScrapeAct.saveSession ∈ (scrape_medium_article_content url w).actions
        ∧ (scrape_medium_article_content url w).fs = (save_cookies w.saveEnv w.fs).2)
    ∧ ((scrape_medium_article_content url { w with saveEnv := se }).result
        = (scrape_medium_article_content url w).result) := by
  have hunfold : ∀ w2 : World, w2.launch = .ret () →
      scrape_medium_article_content url w2
        = (if load_cookies w2.loadEnv then
            scrape_article_phase url w2 [.launchBrowser, .loadSession] w2.fs
          else
            match w2.loginResult with
            | .raised e =>
              ⟨.error ("Failed to authenticate with Medium: " ++ e),
                [.launchBrowser, .loadSession] ++ [.runLogin], w2.fs⟩
            | .ret lr2 =>
              if lr2.authenticated then
                scrape_article_phase url w2
                  ([.launchBrowser, .loadSession] ++ [.runLogin, .saveSession])
                  (save_cookies w2.saveEnv w2.fs).2
              else
                ⟨.error ("Failed to authenticate with Medium: " ++ lr2.errMsg),
                  [.launchBrowser, .loadSession] ++ [.runLogin], w2.fs⟩) := by
    intro w2 hl2
    simp [scrape_medium_article_content, hu, hs, hn, hl2]
  refine ⟨?_, ?_, ?_, ?_⟩
  · rw [hunfold w hl]
    by_cases hload : load_cookies w.loadEnv
    · simp only [hload, if_pos]
      unfold scrape_article_phase
      cases w.goto with
      | raised e => simp
      | ret u =>
        by_cases hp : is_login_page w.pageContent <;> simp [hp]
    · simp only [hload, if_neg, Bool.false_eq_true]
      cases w.loginResult with
      | raised e => simp
      | ret lr2 =>
        by_cases ha : lr2.authenticated
        · simp only [ha, if_pos]
          unfold scrape_article_phase
          cases w.goto with
          | raised e => simp
          | ret u =>
            by_cases hp : is_login_page w.pageContent <;> simp [hp]
        · simp [ha]
  · rw [hunfold w hl]
    by_cases hload : load_cookies w.loadEnv
    · simp only [hload, if_pos]
      unfold scrape_article_phase
      cases w.goto with
      | raised e => simp [hload]
      | ret u =>
        by_cases hp : is_login_page w.pageContent <;> simp [hp, hload]
    · simp only [hload, if_neg, Bool.false_eq_true]
      cases w.loginResult with
      | raised e => simp [hload]
      | ret lr2 =>
        by_cases ha : lr2.authenticated
        · simp only [ha, if_pos]
          unfold scrape_article_phase
          cases w.goto with
          | raised e => simp [hload]
          | ret u =>
            by_cases hp : is_login_page w.pageContent <;> simp [hp, hload]
        · simp [ha, hload]
  · intro hload hlr ha
    rw [hunfold w hl]
    simp only [hload, Bool.false_eq_true, if_neg, hlr, ha, if_pos]
    unfold scrape_article_phase
    cases w.goto with
    | raised e => simp
    | ret u =>
      by_cases hp : is_login_page w.pageContent <;> simp [hp]
  · rw [hunfold w hl, hunfold { w with saveEnv := se } (by simpa using hl)]
    by_cases hload : load_cookies w.loadEnv
    · simp only [hload]
      unfold scrape_article_phase
      simp
    · simp only [hload, Bool.false_eq_true, if_neg]
      cases hw : w.loginResult with
      | raised e => simp [hw]
      | ret lr2 =>
        by_cases ha : lr2.authenticated
        · simp only [hw, ha, if_pos]
          unfold scrape_article_phase
          cases w.goto with
          | raised e => simp
          | ret u =>
            by_cases hp : is_login_page w.pageContent <;> simp [hp]
        · simp [hw, ha]

/-- Witness for `login_exactly_when_cookie_load_fails` at `loginWorld`. -/
theorem login_exactly_when_cookie_load_fails_witness :
    ((scrape_medium_article_content "https://medium.com/p/abc" loginWorld).actions.take 2
        = [ScrapeAct.launchBrowser, ScrapeAct.loadSession])
    ∧ (ScrapeAct.runLogin ∈
          (scrape_medium_article_content "https://medium.com/p/abc" loginWorld).actions
        ↔ load_cookies loginWorld.loadEnv = false)
    ∧ (load_cookies loginWorld.loadEnv = false →
        loginWorld.loginResult = .ret { authenticated := true, errMsg := "" } →
        LoginOutcome.authenticated { authenticated := true, errMsg := "" } = true →
        ScrapeAct.saveSession ∈
            (scrape_medium_article_content "https://medium.com/p/abc" loginWorld).actions
        ∧ (scrape_medium_article_content "https://medium.com/p/abc" loginWorld).fs
            = (save_cookies loginWorld.saveEnv loginWorld.fs).2)
    ∧ ((scrape_medium_article_content "https://medium.com/p/abc"
          { loginWorld with saveEnv := idleSaveEnv }).result
        = (scrape_medium_article_content "https://medium.com/p/abc" loginWorld).result) :=
  login_exactly_when_cookie_load_fails "https://medium.com/p/abc" loginWorld
    { authenticated := true, errMsg := "" } idleSaveEnv
    (by decide) (by decide) (by decide) rfl
